import Mathlib

/-!
Verification of the schema-driven input framework of `src/utils/inputvalue.py`
(classes `input_default`, `Input`, `InputValue`, `InputArray`) and the variant
dispatcher of `ipi/inputs/motion/motion.py` (classes `InputMotionBase`,
`InputMotion`).

The Python code is shallowly embedded: each class becomes a Lean structure
holding its instance state, and each method becomes a function on that state.
Exceptions raised by a method become `Except`/`Option Err` results; a method
that mutates state partially before raising returns the partial state where a
claim depends on it (`InputValue.store`).  External collaborators that are not
part of the supplied sources (the `io_xml` tokenizer, the unit-conversion
table, the concrete engine classes such as `Motion`, `Replay`, `GeopMotion`,
`InitFile`, and the kind-specific sub-inputs `InputGeop` etc.) are modelled
from the specification, as marked in their doc comments.
-/

/-- The scalar data types used by the program as leaf `dtype`s.
Floats are not modelled (no claim depends on floating point);
the types exercised by the motion schema are `bool`, `int`, `str`, `tuple`. -/
inductive DType where
  | dbool
  | dint
  | dstr
  | dtuple
deriving DecidableEq, Repr

/-- A Python scalar value as held by `InputValue.value`:
a bool, an int, a string, or a tuple of ints (used for array shapes). -/
inductive SVal where
  | sbool (b : Bool)
  | sint (z : Int)
  | sstr (s : String)
  | stuple (t : List Int)
deriving DecidableEq, Repr

/-- The runtime type tag of a scalar value. -/
def SVal.styp : SVal → DType
  | .sbool _ => .dbool
  | .sint _ => .dint
  | .sstr _ => .dstr
  | .stuple _ => .dtuple

/-- The errors raised by the embedded code.  Python raises plain
`ValueError`/`NameError`/`TypeError`/`AttributeError` objects with messages;
the constructors here record the semantic category the spec's taxonomy (§7)
assigns to each raise site, together with the names interpolated into the
message. -/
inductive Err where
  /-- a value cannot be coerced to the leaf's declared type
      (spec: TypeConversionError). -/
  | typeConversion
  /-- `Input.check`: "Uninitialized Input value of type ..."
      (spec: MissingValueError). -/
  | missingValue (tyname : String)
  /-- `InputValue.check`: "... is not a valid option ..."
      (spec: InvalidOptionError). -/
  | invalidOption
  /-- `InputValue.__init__`: "Default value not in option list ...". -/
  | invalidDefault
  /-- `Input.parse`: "Attribute name 'a' is not a recognized property of
      'name' objects" (spec: UnrecognizedAttributeError). -/
  | unrecognizedAttribute (a name : String)
  /-- `Input.parse`: "Tag name 'f' is not a recognized property of 'name'
      objects" (spec: UnrecognizedTagError). -/
  | unrecognizedTag (tag name : String)
  /-- `Input.parse`: "Attribute name 'a' is mandatory and was not found in the
      input for the property name" (spec: MissingFieldError). -/
  | missingAttribute (a name : String)
  /-- `Input.parse`: "Field name 'f' is mandatory and was not found in the
      input for the property name" (spec: MissingFieldError). -/
  | missingField (f name : String)
  /-- `InputMotionBase.store`: "Cannot store Mover calculator of type ..."
      (spec: UnsupportedKindError). -/
  | unsupportedKind
  /-- numpy `ValueError` from `value.reshape(shape)` when the element counts
      disagree. -/
  | reshapeError
  /-- Python `AttributeError` (e.g. `self.value` accessed before any
      assignment). -/
  | attributeError
  /-- Python `IndexError` (`xml.fields[0]` on an empty list). -/
  | indexError
  /-- other `ValueError` raise sites, identified by their message. -/
  | valueError (msg : String)
deriving DecidableEq, Repr

/-- Python truthiness, as used by the `bool(...)` constructor. -/
def SVal.truthy : SVal → Bool
  | .sbool b => b
  | .sint z => z != 0
  | .sstr s => s ≠ ""
  | .stuple t => t ≠ []

/-- Python `str(...)` of the modelled scalar values. -/
def SVal.pyStr : SVal → String
  | .sbool b => if b then "True" else "False"
  | .sint z => toString z
  | .sstr s => s
  | .stuple t => toString t

/-- The Python call `self.type(value)` performed by `InputValue.store`:
coercion of a raw value to the declared data type, `none` when the call
raises (`TypeError`/`ValueError`).  `bool(...)` and `str(...)` accept any
value; `int(...)` accepts ints, bools and numeric strings; `tuple(...)` of a
non-sequence raises.  (Python's `tuple("ab")` would give a tuple of
characters, which the modelled tuple-of-ints cannot represent; the program
never coerces a string to a tuple through this path.) -/
def coerce : DType → SVal → Option SVal
  | .dbool, v => some (.sbool v.truthy)
  | .dint, .sbool b => some (.sint (if b then 1 else 0))
  | .dint, .sint z => some (.sint z)
  | .dint, .sstr s => (s.toInt?).map .sint
  | .dint, .stuple _ => none
  | .dstr, v => some (.sstr v.pyStr)
  | .dtuple, .stuple t => some (.stuple t)
  | .dtuple, _ => none

/-- Modelled from the spec: the input text-tree boundary (§6) delivers
attribute values and tag bodies as pre-parsed data ("The core never tokenizes
raw text itself").  A raw value is either one scalar token or a delimited
list of scalar tokens. -/
inductive RawVal where
  | scalar (v : SVal)
  | array (l : List SVal)
deriving DecidableEq, Repr

/-- Modelled from the spec: `read_type` of the external `io_xml` module
(absent from src), which converts the text of one value to the requested
data type, raising when the text does not denote a value of that type. -/
def read_type (t : DType) (r : RawVal) : Except Err SVal :=
  match r with
  | .scalar v => if v.styp = t then .ok v else .error .typeConversion
  | .array _ => .error .typeConversion

/-- Modelled from the spec: `read_array` of the external `io_xml` module
(absent from src), which converts a delimited list to a flat sequence of
values of the requested data type. -/
def read_array (t : DType) (r : RawVal) : Except Err (List SVal) :=
  match r with
  | .array l => if l.all (fun v => v.styp = t) then .ok l else .error .typeConversion
  | .scalar _ => .error .typeConversion

/-- Modelled from the spec: the external unit-conversion boundary (§6), a
black box used by `fetch` only when `dimension != "undefined"`.  It is left
as the identity placeholder; every theorem below that involves `fetch`
restricts itself to `dimension = "undefined"`, so no result depends on this
placeholder's value. -/
def unit_to_internal (dimension units : String) (v : SVal) : SVal :=
  let _ := dimension
  let _ := units
  v

/-- The deferred-construction token `input_default`: either a literal default
value or a factory producing a fresh value.  `materialize` is its one
operation (`factory(*args, **kwargs)`). -/
inductive DefaultSpec (α : Type) where
  | lit (v : α)
  | factory (f : Unit → α)

/-- Materialize a default: a literal is itself, a factory is invoked. -/
def DefaultSpec.materialize : DefaultSpec α → α
  | .lit v => v
  | .factory f => f ()

/-- The instance state of an `InputValue` (scalar leaf): declared data type,
unit metadata, the stored value (`none` before any assignment of
`self.value`), the `_explicit`/`_optional` flags and the `_valid` option
whitelist. -/
structure ValueState where
  dtype : DType
  dimension : String
  units : String
  valueOpt : Option SVal
  explicit : Bool
  optional : Bool
  valid : Option (List SVal)
deriving DecidableEq, Repr

/-- `InputValue.store`: `super().store(value)` sets `_explicit = True`
first, then `self.value = self.type(value)`; a failed coercion raises, and
the partial state (with the explicit flag already set) is returned beside
the error. -/
def ValueState.store (st : ValueState) (v : SVal) : ValueState × Option Err :=
  let st := { st with explicit := true }
  match coerce st.dtype v with
  | some w => ({ st with valueOpt := some w }, none)
  | none => (st, some .typeConversion)

/-- `Input.check` followed by `InputValue.check`: a mandatory leaf that was
never made explicit raises; then, only when `_valid` is set (Python's
short-circuit `self._valid is None or self.value in self._valid`), the
stored value is checked against the whitelist — accessing `self.value`
before any assignment is an `AttributeError`. -/
def ValueState.check (st : ValueState) : Option Err :=
  if ¬(st.explicit ∨ st.optional) then some (.missingValue "InputValue")
  else
    match st.valid with
    | none => none
    | some opts =>
      match st.valueOpt with
      | none => some .attributeError
      | some v => if v ∈ opts then none else some .invalidOption

/-- `InputValue.fetch`: runs `check`, then returns the stored value, routed
through the unit table when a dimension is declared. -/
def ValueState.fetch (st : ValueState) : Except Err SVal :=
  match st.check with
  | some e => .error e
  | none =>
    match st.valueOpt with
    | none => .error .attributeError
    | some v =>
      if st.dimension ≠ "undefined" then .ok (unit_to_internal st.dimension st.units v)
      else .ok v

/-- `InputValue.__init__` delegating to `Input.__init__`: the `_optional`
flag records whether a default was supplied; a supplied default is
materialized once and applied through `store`, after which `_explicit` is
reset to `False`; finally the `options` whitelist is installed and a default
lying outside it is rejected (the membership test uses the materialized
default, before coercion). -/
def mkInputValue (dtype : DType) (dimension units : Option String)
    (default : Option (DefaultSpec SVal)) (options : Option (List SVal)) :
    Except Err ValueState :=
  let st0 : ValueState :=
    { dtype := dtype
      dimension := dimension.getD "undefined"
      units := units.getD ""
      valueOpt := none
      explicit := false
      optional := default.isSome
      valid := none }
  match default with
  | none =>
    .ok { st0 with valid := options }
  | some d =>
    let dv := d.materialize
    match st0.store dv with
    | (_, some e) => .error e
    | (st1, none) =>
      let st2 := { st1 with explicit := false, valid := options }
      match options with
      | none => .ok st2
      | some opts => if dv ∈ opts then .ok st2 else .error .invalidDefault

/-- A numpy ndarray as the program holds it: the shape tuple together with
the row-major flattened element list.  (`InputArray.store` flattens on
entry, so the stored data is always the flat sequence.) -/
structure NDArray where
  shape : List Int
  data : List SVal
deriving DecidableEq, Repr

/-- Element count of a declared shape (product of the dimensions). -/
def shapeProd (sh : List Int) : Int := sh.foldr (· * ·) 1

/-- `np.array(value, dtype=t).flatten()`: elementwise coercion of the
flattened data, `none` when some element cannot be coerced. -/
def coerceList (t : DType) : List SVal → Option (List SVal)
  | [] => some []
  | v :: rest =>
    match coerce t v with
    | none => none
    | some w =>
      match coerceList t rest with
      | none => none
      | some ws => some (w :: ws)

/-- numpy `value.reshape(sh)`: succeeds exactly when the declared element
count matches the flat length (the program never passes numpy's `-1`
inference through this path; negative dimensions are rejected as numpy
rejects them). -/
def npReshape (sh : List Int) (data : List SVal) : Except Err NDArray :=
  if sh.all (fun d => 0 ≤ d) ∧ shapeProd sh = (data.length : Int) then .ok ⟨sh, data⟩
  else .error .reshapeError

/-- The instance state of an `InputArray`: declared element type, unit
metadata, the nested `shape` attribute node (an `InputValue` of dtype
tuple), the flattened stored data (`none` before any assignment of
`self.value`) and the `_explicit`/`_optional` flags. -/
structure ArrayState where
  dtype : DType
  dimension : String
  units : String
  shape : ValueState
  valueOpt : Option (List SVal)
  explicit : Bool
  optional : Bool
deriving DecidableEq, Repr

/-- `InputArray.store`: `super().store` sets the explicit flag, the true
shape of the incoming array is stored into the `shape` node, the data is
flattened and coerced elementwise, and when the declared shape is still the
`(0,)` sentinel it is recomputed to the flattened length. -/
def ArrayState.store (st : ArrayState) (nd : NDArray) : ArrayState × Option Err :=
  let st := { st with explicit := true }
  match st.shape.store (.stuple nd.shape) with
  | (sh1, some e) => ({ st with shape := sh1 }, some e)
  | (sh1, none) =>
    let st := { st with shape := sh1 }
    match coerceList st.dtype nd.data with
    | none => (st, some .typeConversion)
    | some flat =>
      let st := { st with valueOpt := some flat }
      match st.shape.fetch with
      | .error e => (st, some e)
      | .ok sv =>
        if sv = .stuple [0] then
          match st.shape.store (.stuple [(flat.length : Int)]) with
          | (sh2, e2) => ({ st with shape := sh2 }, e2)
        else (st, none)

/-- `InputArray.fetch`: runs the inherited `check`, then returns the data
reshaped to the declared shape — `np.resize(value, 0)` (an empty `(0,)`
array) when the shape is the `(0,)` sentinel, otherwise `value.reshape`
which raises on an element-count mismatch — scaled through the unit table
when a dimension is declared. -/
def ArrayState.fetch (st : ArrayState) : Except Err NDArray :=
  if ¬(st.explicit ∨ st.optional) then .error (.missingValue "InputArray")
  else
    match st.shape.fetch with
    | .error e => .error e
    | .ok sv =>
      match sv with
      | .stuple t =>
        match st.valueOpt with
        | none => .error .attributeError
        | some data =>
          let reshaped : Except Err NDArray :=
            if t = [0] then .ok ⟨[0], []⟩ else npReshape t data
          match reshaped with
          | .error e => .error e
          | .ok nd =>
            if st.dimension ≠ "undefined" then
              .ok ⟨nd.shape, nd.data.map (unit_to_internal st.dimension st.units)⟩
            else .ok nd
      | _ => .error .typeConversion

/-- The `shape` attribute node as declared in `InputArray.attribs`:
`InputValue(dtype=tuple, default=(0,))`. -/
def shapeAttrInit : ValueState :=
  { dtype := .dtuple
    dimension := "undefined"
    units := ""
    valueOpt := some (.stuple [0])
    explicit := false
    optional := true
    valid := none }

/-- `InputArray.__init__` delegating to `Input.__init__`: the `shape`
attribute child is constructed from its declaration, then a supplied
default array (literal or descriptor) is applied through `store` and
`_explicit` is reset. -/
def mkInputArray (dtype : DType) (dimension units : Option String)
    (default : Option (DefaultSpec NDArray)) : Except Err ArrayState :=
  let st0 : ArrayState :=
    { dtype := dtype
      dimension := dimension.getD "undefined"
      units := units.getD ""
      shape := shapeAttrInit
      valueOpt := none
      explicit := false
      optional := default.isSome }
  match default with
  | none => .ok st0
  | some d =>
    match st0.store d.materialize with
    | (_, some e) => .error e
    | (st1, none) => .ok { st1 with explicit := false }

mutual
/-- The pre-parsed text tree consumed by `Input.parse` (the `xml_node` of
the external `io_xml` module, §6): a tag name, its attribute list and its
ordered child list, in which a pseudo-child named `_text` carries inline
text. -/
inductive XmlNode where
  | mk (name : String) (attribs : List (String × RawVal)) (fields : XmlFields)

/-- The ordered `(child-name, child)` sequence of a tag, written as an
explicit cons-list so that mutual structural recursion with `XmlNode` is
direct. -/
inductive XmlFields where
  | nil
  | cons (tag : String) (child : XmlChild) (rest : XmlFields)

/-- A child entry of a tag: inline text (under the `_text` pseudo-name) or a
nested tag. -/
inductive XmlChild where
  | text (r : RawVal)
  | node (x : XmlNode)
end

/-- The tag name of a tree node. -/
def XmlNode.name : XmlNode → String
  | .mk n _ _ => n

/-- Read a raw attribute value as the plain string Python would hold
(`xml.attribs[...]` entries are strings, e.g. the `units` attribute). -/
def RawVal.asString : RawVal → Except Err String
  | .scalar (.sstr s) => .ok s
  | _ => .error .typeConversion

/-- `InputValue.parse(text=...)` (the `xml is None` branch): marks the node
explicit and reads the body text as one value of the declared type. -/
def ValueState.parseText (st : ValueState) (r : RawVal) : Except Err ValueState :=
  let st := { st with explicit := true }
  match read_type st.dtype r with
  | .error e => .error e
  | .ok v => .ok { st with valueOpt := some v }

/-- `InputValue.parse(xml=...)`: marks the node explicit, picks up a `units`
attribute, rejects any other attribute (a generic `InputValue` declares no
attribute children; Python tests membership in the instance `__dict__`, so
an attribute named after an internal member would fail differently — the
program never produces such names), then reads `xml.fields[0]` as the body
text. -/
def ValueState.parseXml (st : ValueState) (x : XmlNode) : Except Err ValueState :=
  match x with
  | .mk name xatts xflds =>
    let st := { st with explicit := true }
    let unitsStep : Except Err ValueState :=
      match xatts.lookup "units" with
      | none => .ok st
      | some r =>
        match r.asString with
        | .error e => .error e
        | .ok u => .ok { st with units := u }
    match unitsStep with
    | .error e => .error e
    | .ok st =>
      match xatts.find? (fun p => p.1 ≠ "units") with
      | some p => .error (.unrecognizedAttribute p.1 name)
      | none =>
        match xflds with
        | .nil => .error .indexError
        | .cons _ ch _ =>
          match ch with
          | .node _ => .error .attributeError
          | .text r =>
            match read_type st.dtype r with
            | .error e => .error e
            | .ok v => .ok { st with valueOpt := some v }

/-- `InputArray.parse(text=...)` (the `xml is None` branch): marks the node
explicit and reads the body text as a flat array; the `shape` node is left
untouched. -/
def ArrayState.parseText (st : ArrayState) (r : RawVal) : Except Err ArrayState :=
  let st := { st with explicit := true }
  match read_array st.dtype r with
  | .error e => .error e
  | .ok l => .ok { st with valueOpt := some l }

/-- `InputArray.parse(xml=...)`: marks the node explicit, requires the first
child entry to be the `_text` body, reads it as a flat array, picks up a
`units` attribute, stores an explicit `shape` attribute verbatim (no
comparison against the flattened length) or else infers the shape from the
parsed length, and rejects any further attribute. -/
def ArrayState.parseXml (st : ArrayState) (x : XmlNode) : Except Err ArrayState :=
  match x with
  | .mk name xatts xflds =>
    let st := { st with explicit := true }
    match xflds with
    | .nil => .error .indexError
    | .cons f0 ch0 _ =>
      if f0 ≠ "_text" then .error (.valueError "InputArray should not contain further XML tags")
      else
        match ch0 with
        | .node _ => .error .typeConversion
        | .text r =>
          match read_array st.dtype r with
          | .error e => .error e
          | .ok data =>
            let st := { st with valueOpt := some data }
            let unitsStep : Except Err ArrayState :=
              match xatts.lookup "units" with
              | none => .ok st
              | some ru =>
                match ru.asString with
                | .error e => .error e
                | .ok u => .ok { st with units := u }
            match unitsStep with
            | .error e => .error e
            | .ok st =>
              let shapeStep : Except Err ArrayState :=
                match xatts.lookup "shape" with
                | some rs =>
                  match read_type .dtuple rs with
                  | .error e => .error e
                  | .ok sv =>
                    match st.shape.store sv with
                    | (sh1, some e) => let _ := sh1; .error e
                    | (sh1, none) => .ok { st with shape := sh1 }
                | none =>
                  match st.shape.store (.stuple [(data.length : Int)]) with
                  | (sh1, some e) => let _ := sh1; .error e
                  | (sh1, none) => .ok { st with shape := sh1 }
              match shapeStep with
              | .error e => .error e
              | .ok st =>
                match xatts.find? (fun p => p.1 ≠ "shape" ∧ p.1 ≠ "units") with
                | some p => .error (.unrecognizedAttribute p.1 name)
                | none => .ok st

/-- A generic schema node as `Input` manipulates it: a scalar leaf, an array
leaf, or a composite with declared attribute children, declared field
children, dynamic templates and the `extra` list of dynamically instantiated
children (`icomp attribs fields dynamic extra explicit optional`).  The
per-kind `fields`/`attribs`/`dynamic` class dictionaries are carried as
ordered association lists of already-constructed child nodes; a dynamic
template entry stands for the `(factory, kwargs)` pair, instantiation being
a value copy. -/
inductive INode where
  | ival (st : ValueState)
  | iarr (st : ArrayState)
  | icomp (attribs fields dynamic extra : List (String × INode))
      (explicit optional : Bool)

/-- The `_explicit` flag of a node. -/
def INode.explicitOf : INode → Bool
  | .ival st => st.explicit
  | .iarr st => st.explicit
  | .icomp _ _ _ _ e _ => e

/-- The `_optional` flag of a node. -/
def INode.optionalOf : INode → Bool
  | .ival st => st.optional
  | .iarr st => st.optional
  | .icomp _ _ _ _ _ o => o

/-- `child.parse(text=v)` dispatched on the child's kind: calling the base
`Input.parse` without an xml tag raises. -/
def INode.parseAsText : INode → RawVal → Except Err INode
  | .ival st, r => (st.parseText r).map .ival
  | .iarr st, r => (st.parseText r).map .iarr
  | .icomp _ _ _ _ _ _, _ => .error (.valueError "Input.parse should be called with a xml tag")

/-- Replace the first binding of `key` in an association list (the effect of
mutating `self.__dict__[key]`). -/
def updateAssoc (l : List (String × INode)) (key : String) (v : INode) :
    List (String × INode) :=
  match l with
  | [] => []
  | (k, w) :: rest =>
    if k = key then (k, v) :: rest else (k, w) :: updateAssoc rest key v

/-- The attribute loop of `Input.parse`: each source attribute is routed to
the declared attribute node's `parse(text=...)`, the `_text` pseudo-name is
skipped, and anything else raises `UnrecognizedAttributeError` naming the
attribute and the enclosing tag. -/
def parseCompAttribs (name : String) (decl : List (String × INode)) :
    List (String × RawVal) → Except Err (List (String × INode))
  | [] => .ok decl
  | (a, r) :: rest =>
    match decl.lookup a with
    | some child =>
      match child.parseAsText r with
      | .error e => .error e
      | .ok child2 => parseCompAttribs name (updateAssoc decl a child2) rest
    | none =>
      if a = "_text" then parseCompAttribs name decl rest
      else .error (.unrecognizedAttribute a name)

/-- The first declared child that is neither explicit nor optional — the
offender the mandatory-check loops of `Input.parse` raise on. -/
def firstNonExplicit (l : List (String × INode)) : Option (String × INode) :=
  l.find? (fun p => ¬(p.2.explicitOf ∨ p.2.optionalOf))

mutual
/-- `Input.parse` (and the per-kind dispatch of `.parse` on a child): a
composite resets `extra`, marks itself explicit, routes every source
attribute, runs the `adapt()` hook (a no-op), routes every source child
(declared field, `_text`, or dynamic template — anything else raises
`UnrecognizedTagError`), and finally raises `MissingFieldError`-category
errors for the first declared attribute, then the first declared field,
that is neither explicit nor optional. -/
def INode.parseNode (n : INode) (x : XmlNode) : Except Err INode :=
  match n, x with
  | .ival st, x => (st.parseXml x).map .ival
  | .iarr st, x => (st.parseXml x).map .iarr
  | .icomp atts flds dyn _extra _exp opt, .mk name xatts xflds =>
    match parseCompAttribs name atts xatts with
    | .error e => .error e
    | .ok atts2 =>
      match INode.parseFields name flds dyn [] xflds with
      | .error e => .error e
      | .ok (flds2, extra2) =>
        match firstNonExplicit atts2 with
        | some p => .error (.missingAttribute p.1 name)
        | none =>
          match firstNonExplicit flds2 with
          | some p => .error (.missingField p.1 name)
          | none => .ok (.icomp atts2 flds2 dyn extra2 true opt)
termination_by structural x

/-- The child loop of `Input.parse`: a declared field delegates `parse`, the
`_text` pseudo-child is skipped, a dynamic template is instantiated, parsed
and appended to `extra` (`Input.extend`), and an unknown tag raises
`UnrecognizedTagError` naming the tag and the enclosing node. -/
def INode.parseFields (name : String) (flds dyn extra : List (String × INode))
    (xf : XmlFields) : Except Err (List (String × INode) × List (String × INode)) :=
  match xf with
  | .nil => .ok (flds, extra)
  | .cons f ch rest =>
    match flds.lookup f with
    | some child =>
      match ch with
      | .node x =>
        match INode.parseNode child x with
        | .error e => .error e
        | .ok child2 => INode.parseFields name (updateAssoc flds f child2) dyn extra rest
      | .text _ => .error .attributeError
    | none =>
      if f = "_text" then INode.parseFields name flds dyn extra rest
      else
        match dyn.lookup f with
        | some tmpl =>
          match ch with
          | .node x =>
            match INode.parseNode tmpl x with
            | .error e => .error e
            | .ok inst => INode.parseFields name flds dyn (extra ++ [(f, inst)]) rest
          | .text _ => .error .attributeError
        | none => .error (.unrecognizedTag f name)
termination_by structural xf
end

/-- Modelled from the spec: the engine's `InitFile` domain object (absent
from src) — the file reference a `replay` motion carries; the dynamic
template default materializes `InitFile(mode="xyz")`. -/
structure InitFile where
  mode : String
  path : String
deriving DecidableEq, Repr

/-- The default `InitFile` produced by
`input_default(factory=InitFile, kwargs={"mode": "xyz"})`. -/
def defaultInitFile : InitFile := { mode := "xyz", path := "" }

/-- Keyword-argument set, as extracted from / fed to a kind-specific
sub-schema (`**self.optimizer.fetch()` splats such a dictionary into the
domain constructor). -/
abbrev Kwargs := List (String × SVal)

/-- Modelled from the spec: the concrete motion domain objects of
`ipi.engine.motion` (absent from src).  Each non-trivial kind except
`replay` carries the two cross-cutting values (`fixcom`, `fixatoms`, the
latter a 1-D integer index array) plus its kind-specific keyword set; the
`replay` kind carries the file reference; `base` is the minimal no-op
`Motion()`; `multi` owns an ordered list of sub-motions. -/
inductive Motion where
  | base
  | replay (intraj : InitFile)
  | geop (fixcom : Bool) (fixatoms : List Int) (params : Kwargs)
  | neb (fixcom : Bool) (fixatoms : List Int) (params : Kwargs)
  | dynamics (fixcom : Bool) (fixatoms : List Int) (params : Kwargs)
  | vibrations (fixcom : Bool) (fixatoms : List Int) (params : Kwargs)
  | alchemy (fixcom : Bool) (fixatoms : List Int) (params : Kwargs)
  | multi (mlist : List Motion)
deriving Repr

/-- Whether a motion object is the composite `MultiMotion` kind. -/
def Motion.isMulti : Motion → Bool
  | .multi _ => true
  | _ => false

/-- Modelled from the spec: the state of a kind-specific sub-input
(`InputGeop`, `InputNEB`, `InputDynamics`, `InputDynMatrix`, `InputAlchemy`,
absent from src): it serializes the kind-specific configuration of the
domain object and hands it back as the constructor's keyword values; each is
declared with default `{}`, hence optional. -/
structure ParamState where
  value : Kwargs
  explicit : Bool
  optional : Bool
deriving DecidableEq, Repr

/-- `store` of a kind-specific sub-input: records the keyword set and marks
the node explicit. -/
def ParamState.store (st : ParamState) (p : Kwargs) : ParamState :=
  { st with value := p, explicit := true }

/-- `fetch` of a kind-specific sub-input: checks, then returns the keyword
set. -/
def ParamState.fetch (st : ParamState) : Except Err Kwargs :=
  if ¬(st.explicit ∨ st.optional) then .error (.missingValue "ParamInput")
  else .ok st.value

/-- Modelled from the spec: the state of the `file` field (`InputInitFile`,
absent from src), holding the trajectory file reference. -/
structure FileState where
  value : InitFile
  explicit : Bool
  optional : Bool
deriving DecidableEq, Repr

/-- `store` of the file field: records the reference and marks the node
explicit. -/
def FileState.store (st : FileState) (v : InitFile) : FileState :=
  { st with value := v, explicit := true }

/-- `fetch` of the file field: checks, then returns the reference. -/
def FileState.fetch (st : FileState) : Except Err InitFile :=
  if ¬(st.explicit ∨ st.optional) then .error (.missingValue "InputInitFile")
  else .ok st.value

/-- The option whitelist of the `mode` discriminator attribute.  Note that
`InputMotion.attribs = copy(InputMotionBase.attribs)` is a shallow copy, so
`attribs["mode"][1]["options"].append("multi")` mutates the single shared
option list: both classes see the list including `"multi"`. -/
def motionModeOptions : List SVal :=
  [.sstr "vibrations", .sstr "minimize", .sstr "replay", .sstr "neb",
   .sstr "dynamics", .sstr "alchemy", .sstr "dummy", .sstr "multi"]

/-- The instance state of an `InputMotionBase`: the `mode` discriminator
attribute (an enumerated scalar leaf, class `InputAttribute`, modelled from
the spec as such), the `fixcom`/`fixatoms` fields, one kind-specific
sub-schema per kind, the `file` field, and the node's own flags.  Its
`extra` list stays empty (`InputMotionBase.dynamic` is empty and its `store`
never appends), so it is not carried. -/
structure MotionBaseState where
  mode : ValueState
  fixcom : ValueState
  fixatoms : ArrayState
  optimizer : ParamState
  neb_optimizer : ParamState
  dynamics : ParamState
  file : FileState
  vibrations : ParamState
  alchemy : ParamState
  explicit : Bool
  optional : Bool
deriving DecidableEq, Repr

/-- The instance state of an `InputMotion`: the inherited base state plus
the `extra` list of `("motion", child)` pairs filled by the `multi` branch
of `store` (its dynamic template instantiates `InputMotionBase`). -/
structure MotionState where
  base : MotionBaseState
  extra : List (String × MotionBaseState)
deriving DecidableEq, Repr

/-- The freshly constructed `mode` attribute: enumerated, no default, hence
mandatory. -/
def initialMode : ValueState :=
  { dtype := .dstr, dimension := "undefined", units := "", valueOpt := none,
    explicit := false, optional := false, valid := some motionModeOptions }

/-- The freshly constructed `fixcom` field: `InputValue(bool, default=True)`
— the default has been applied and the explicit flag reset. -/
def initialFixcom : ValueState :=
  { dtype := .dbool, dimension := "undefined", units := "", valueOpt := some (.sbool true),
    explicit := false, optional := true, valid := none }

/-- The freshly constructed `fixatoms` field:
`InputArray(int, default=np.zeros(0, int))` — the default empty array has
been applied through `store` (which also marked the nested `shape` node
explicit) and the array's own explicit flag reset. -/
def initialFixatoms : ArrayState :=
  { dtype := .dint, dimension := "undefined", units := "",
    shape := { shapeAttrInit with valueOpt := some (.stuple [0]), explicit := true },
    valueOpt := some [], explicit := false, optional := true }

/-- A freshly constructed kind-specific sub-input (default `{}` applied,
explicit reset). -/
def initialParam : ParamState :=
  { value := [], explicit := false, optional := true }

/-- The freshly constructed `file` field (descriptor default
`input_default(factory=InitFile, kwargs={"mode": "xyz"})` applied, explicit
reset). -/
def initialFile : FileState :=
  { value := defaultInitFile, explicit := false, optional := true }

/-- `InputMotionBase()` as built by `Input.__init__` with no default: every
declared child constructed from its declaration, the node itself neither
explicit nor optional. -/
def initialInputMotionBase : MotionBaseState :=
  { mode := initialMode
    fixcom := initialFixcom
    fixatoms := initialFixatoms
    optimizer := initialParam
    neb_optimizer := initialParam
    dynamics := initialParam
    file := initialFile
    vibrations := initialParam
    alchemy := initialParam
    explicit := false
    optional := false }

/-- `InputMotion()` freshly constructed: the inherited children (the shared
`mode` option list already contains `"multi"`) and an empty `extra`. -/
def initialInputMotion : MotionState :=
  { base := initialInputMotionBase, extra := [] }

/-- A 1-D numpy integer array, as `fixatoms` holds
(`np.zeros(0, int)`-style index arrays). -/
def intArr (l : List Int) : NDArray :=
  ⟨[(l.length : Int)], l.map .sint⟩

/-- `InputMotionBase.store`: marks the node explicit, dispatches on the
exact runtime kind of the domain object — setting the discriminator and
serializing the kind-specific configuration into the matching sub-node —
raising for an unregistered kind; then (`tsc`) stores the file reference for
`replay`, or the two cross-cutting values for every other non-trivial kind. -/
def storeB (st : MotionBaseState) (sc : Motion) : Except Err MotionBaseState :=
  let st := { st with explicit := true }
  match sc with
  | .base =>
    match st.mode.store (.sstr "dummy") with
    | (m, _) => .ok { st with mode := m }
  | .replay intraj =>
    match st.mode.store (.sstr "replay") with
    | (m, _) => .ok { st with mode := m, file := st.file.store intraj }
  | .geop fc fa p =>
    match st.mode.store (.sstr "minimize") with
    | (m, _) =>
      let st := { st with mode := m, optimizer := st.optimizer.store p }
      match st.fixcom.store (.sbool fc) with
      | (fcn, _) =>
        match st.fixatoms.store (intArr fa) with
        | (fan, some e) => let _ := fan; .error e
        | (fan, none) => .ok { st with fixcom := fcn, fixatoms := fan }
  | .neb fc fa p =>
    match st.mode.store (.sstr "neb") with
    | (m, _) =>
      let st := { st with mode := m, neb_optimizer := st.neb_optimizer.store p }
      match st.fixcom.store (.sbool fc) with
      | (fcn, _) =>
        match st.fixatoms.store (intArr fa) with
        | (fan, some e) => let _ := fan; .error e
        | (fan, none) => .ok { st with fixcom := fcn, fixatoms := fan }
  | .dynamics fc fa p =>
    match st.mode.store (.sstr "dynamics") with
    | (m, _) =>
      let st := { st with mode := m, dynamics := st.dynamics.store p }
      match st.fixcom.store (.sbool fc) with
      | (fcn, _) =>
        match st.fixatoms.store (intArr fa) with
        | (fan, some e) => let _ := fan; .error e
        | (fan, none) => .ok { st with fixcom := fcn, fixatoms := fan }
  | .vibrations fc fa p =>
    match st.mode.store (.sstr "vibrations") with
    | (m, _) =>
      let st := { st with mode := m, vibrations := st.vibrations.store p }
      match st.fixcom.store (.sbool fc) with
      | (fcn, _) =>
        match st.fixatoms.store (intArr fa) with
        | (fan, some e) => let _ := fan; .error e
        | (fan, none) => .ok { st with fixcom := fcn, fixatoms := fan }
  | .alchemy fc fa p =>
    match st.mode.store (.sstr "alchemy") with
    | (m, _) =>
      let st := { st with mode := m, alchemy := st.alchemy.store p }
      match st.fixcom.store (.sbool fc) with
      | (fcn, _) =>
        match st.fixatoms.store (intArr fa) with
        | (fan, some e) => let _ := fan; .error e
        | (fan, none) => .ok { st with fixcom := fcn, fixatoms := fan }
  | .multi _ => .error .unsupportedKind

/-- Read a fetched scalar as the Python bool the domain constructor
receives (the `fixcom` keyword). -/
def SVal.asBool : SVal → Except Err Bool
  | .sbool b => .ok b
  | _ => .error .typeConversion

/-- Extract the underlying ints of a flat value list, `none` on a non-int
entry. -/
def intsOf : List SVal → Option (List Int)
  | [] => some []
  | .sint z :: rest =>
    match intsOf rest with
    | none => none
    | some l => some (z :: l)
  | _ :: _ => none

/-- Read a fetched array as the 1-D integer index list the domain
constructor receives (the `fixatoms` keyword). -/
def NDArray.asInts (nd : NDArray) : Except Err (List Int) :=
  match intsOf nd.data with
  | some l => .ok l
  | none => .error .typeConversion

/-- The common keyword gathering of every `InputMotionBase.fetch` branch
except `replay`-specific ordering differences:
`fixcom=self.fixcom.fetch(), fixatoms=self.fixatoms.fetch()`. -/
def fetchCommon (st : MotionBaseState) : Except Err (Bool × List Int) := do
  let fcv ← st.fixcom.fetch
  let fc ← fcv.asBool
  let fan ← st.fixatoms.fetch
  let fa ← fan.asInts
  .ok (fc, fa)

/-- `InputMotionBase.fetch`: runs the inherited `check`, reads the
discriminator (whose own `fetch` enforces the option whitelist), and builds
the concrete domain object for the named kind from the common keywords plus
the kind-specific sub-schema; a discriminator matching none of the
registered kind branches falls through to the minimal `Motion()` placeholder
(the raise at that site is commented out in the source). -/
def fetchB (st : MotionBaseState) : Except Err Motion := do
  if ¬(st.explicit ∨ st.optional) then throw (.missingValue "InputMotionBase")
  else
    let mv ← st.mode.fetch
    if mv = .sstr "replay" then
      let (fc, fa) ← fetchCommon st
      let _ := fc
      let _ := fa
      let f ← st.file.fetch
      .ok (.replay f)
    else if mv = .sstr "minimize" then
      let (fc, fa) ← fetchCommon st
      let p ← st.optimizer.fetch
      .ok (.geop fc fa p)
    else if mv = .sstr "neb" then
      let (fc, fa) ← fetchCommon st
      let p ← st.neb_optimizer.fetch
      .ok (.neb fc fa p)
    else if mv = .sstr "dynamics" then
      let (fc, fa) ← fetchCommon st
      let p ← st.dynamics.fetch
      .ok (.dynamics fc fa p)
    else if mv = .sstr "vibrations" then
      let (fc, fa) ← fetchCommon st
      let p ← st.vibrations.fetch
      .ok (.vibrations fc fa p)
    else if mv = .sstr "alchemy" then
      let (fc, fa) ← fetchCommon st
      let p ← st.alchemy.fetch
      .ok (.alchemy fc fa p)
    else
      .ok .base

/-- The loop body of the `multi` branch of `InputMotion.store`: for each
sub-motion in order, `im = InputMotionBase(); im.store(m)`; the first raise
aborts the loop. -/
def storeChildren : List Motion → Except Err (List MotionBaseState)
  | [] => .ok []
  | m :: rest =>
    match storeB initialInputMotionBase m with
    | .error e => .error e
    | .ok c =>
      match storeChildren rest with
      | .error e => .error e
      | .ok cs => .ok (c :: cs)

/-- The loop of the `multi` branch of `InputMotion.fetch`: fetch every
`extra` child in order (`mlist.append(m.fetch())`). -/
def fetchExtra : List (String × MotionBaseState) → Except Err (List Motion)
  | [] => .ok []
  | (_, c) :: rest =>
    match fetchB c with
    | .error e => .error e
    | .ok m =>
      match fetchExtra rest with
      | .error e => .error e
      | .ok ms => .ok (m :: ms)

/-- `InputMotion.store`: a `MultiMotion` sets the discriminator to `multi`
and, for each sub-motion in order, instantiates a fresh `InputMotionBase`,
stores the sub-motion into it and appends `("motion", child)` to `extra`;
every other kind delegates to the base `store`.  Note the `multi` branch
never calls the inherited `store`, so it does not touch the node's own
explicit flag. -/
def storeM (st : MotionState) (motion : Motion) : Except Err MotionState :=
  match motion with
  | .multi l =>
    match st.base.mode.store (.sstr "multi") with
    | (m, _) =>
      match storeChildren l with
      | .error e => .error e
      | .ok children =>
        .ok { st with base := { st.base with mode := m },
                      extra := st.extra ++ children.map (fun c => ("motion", c)) }
  | _ =>
    match storeB st.base motion with
    | .error e => .error e
    | .ok b => .ok { st with base := b }

/-- `InputMotion.fetch`: when the discriminator reads `multi`, fetches every
`extra` child in order and assembles the `MultiMotion`; otherwise delegates
to the base `fetch`. -/
def fetchM (st : MotionState) : Except Err Motion := do
  let mv ← st.base.mode.fetch
  if mv = .sstr "multi" then
    let ms ← fetchExtra st.extra
    .ok (.multi ms)
  else
    fetchB st.base

/-- `InputMotionBase.__init__` via `Input.__init__` with an optional default
domain object (the dynamic template of `InputMotion` declares the descriptor
default `input_default(factory=Motion)`): the children are built first, then
a supplied default is applied through `store` and the explicit flag reset. -/
def mkMotionBase (default : Option (DefaultSpec Motion)) : Except Err MotionBaseState :=
  match default with
  | none => .ok initialInputMotionBase
  | some d =>
    match storeB { initialInputMotionBase with optional := true } d.materialize with
    | .error e => .error e
    | .ok st => .ok { st with explicit := false }

/-! Concrete instances used to exercise the embedded operations. -/

/-- A mandatory string scalar leaf (`InputValue(dtype=str)`), as produced by
the generic constructor with no default. -/
def demoStrLeaf : ValueState :=
  { dtype := .dstr, dimension := "undefined", units := "", valueOpt := none,
    explicit := false, optional := false, valid := none }

/-- A mandatory integer scalar leaf (`InputValue(dtype=int)`), as produced
by the generic constructor with no default. -/
def demoIntLeaf : ValueState :=
  { dtype := .dint, dimension := "undefined", units := "", valueOpt := none,
    explicit := false, optional := false, valid := none }

/-- An array tag of the serialized form
`<name shape='(...)'> [ ... ] </name>`: an explicit shape attribute and the
flattened body text. -/
def arrXml (name : String) (sh : List Int) (data : List SVal) : XmlNode :=
  .mk name [("shape", .scalar (.stuple sh))] (.cons "_text" (.text (.array data)) .nil)

/-- A source tag declaring shape `(3,)` over a two-element body: the element
counts disagree. -/
def demoMismatchXml : XmlNode :=
  arrXml "fixatoms" [3] [.sint 1, .sint 2]

/-- The array node obtained by parsing the mismatched tag into a fresh
`fixatoms` node (the error fallback is never taken; see
`C1_counterexample`). -/
def demoMismatchParsed : ArrayState :=
  match ArrayState.parseXml initialFixatoms demoMismatchXml with
  | .ok st => st
  | .error _ => initialFixatoms

/-- A composite with one mandatory declared attribute and no fields. -/
def demoComp : INode :=
  .icomp [("req", .ival demoIntLeaf)] [] [] [] false false

/-- A composite declaring one dynamic template (an integer leaf) and
nothing else. -/
def demoDynComp : INode :=
  .icomp [] [] [("item", .ival demoIntLeaf)] [] false false

/-- The dispatcher node after storing the no-op `Motion()` domain object
(discriminator `dummy`). -/
def demoDummyStored : MotionState :=
  match storeM initialInputMotion .base with
  | .ok st => st
  | .error _ => initialInputMotion

/-- The base node after storing a `GeopMotion` (`minimize`) with
`fixcom=False, fixatoms=[3, 7]`. -/
def demoGeopStored : MotionBaseState :=
  match storeB initialInputMotionBase (.geop false [3, 7] []) with
  | .ok st => st
  | .error _ => initialInputMotionBase

/-- The base node after storing a `Replay` carrying the file reference
`in.xyz`. -/
def demoReplayStored : MotionBaseState :=
  match storeB initialInputMotionBase (.replay ⟨"xyz", "in.xyz"⟩) with
  | .ok st => st
  | .error _ => initialInputMotionBase

/-- The concrete scenario of spec §8: an ordered two-element list, a
`replay` carrying the path `in.xyz` followed by a `minimize` carrying
`fixcom=false, fixatoms=[3, 7]`. -/
def specExampleList : List Motion :=
  [.replay ⟨"xyz", "in.xyz"⟩, .geop false [3, 7] []]

/-- The dispatcher node after storing `MultiMotion(motionlist=[])` (the
`multi` branch of `InputMotion.store`). -/
def demoMultiStored : MotionState :=
  match storeM initialInputMotion (.multi []) with
  | .ok st => st
  | .error _ => initialInputMotion


/-! States produced by `InputMotionBase.store` on each motion kind. -/

/-- The state produced by storing a `GeopMotion` into a fresh base node. -/
def geopStored (fc : Bool) (fa : List Int) (p : Kwargs) : MotionBaseState :=
  { initialInputMotionBase with
      explicit := true
      mode := { initialMode with explicit := true, valueOpt := some (.sstr "minimize") }
      optimizer := { value := p, explicit := true, optional := true }
      fixcom := { initialFixcom with explicit := true, valueOpt := some (.sbool fc) }
      fixatoms := { initialFixatoms with
                      explicit := true
                      valueOpt := some (fa.map .sint)
                      shape := { shapeAttrInit with
                                  explicit := true
                                  valueOpt := some (.stuple [(fa.length : Int)]) } } }

/-- The state produced by storing an `NEBMover` into a fresh base node. -/
def nebStored (fc : Bool) (fa : List Int) (p : Kwargs) : MotionBaseState :=
  { initialInputMotionBase with
      explicit := true
      mode := { initialMode with explicit := true, valueOpt := some (.sstr "neb") }
      neb_optimizer := { value := p, explicit := true, optional := true }
      fixcom := { initialFixcom with explicit := true, valueOpt := some (.sbool fc) }
      fixatoms := { initialFixatoms with
                      explicit := true
                      valueOpt := some (fa.map .sint)
                      shape := { shapeAttrInit with
                                  explicit := true
                                  valueOpt := some (.stuple [(fa.length : Int)]) } } }

/-- The state produced by storing a `Dynamics` into a fresh base node. -/
def dynStored (fc : Bool) (fa : List Int) (p : Kwargs) : MotionBaseState :=
  { initialInputMotionBase with
      explicit := true
      mode := { initialMode with explicit := true, valueOpt := some (.sstr "dynamics") }
      dynamics := { value := p, explicit := true, optional := true }
      fixcom := { initialFixcom with explicit := true, valueOpt := some (.sbool fc) }
      fixatoms := { initialFixatoms with
                      explicit := true
                      valueOpt := some (fa.map .sint)
                      shape := { shapeAttrInit with
                                  explicit := true
                                  valueOpt := some (.stuple [(fa.length : Int)]) } } }

/-- The state produced by storing a `DynMatrixMover` into a fresh base node. -/
def vibStored (fc : Bool) (fa : List Int) (p : Kwargs) : MotionBaseState :=
  { initialInputMotionBase with
      explicit := true
      mode := { initialMode with explicit := true, valueOpt := some (.sstr "vibrations") }
      vibrations := { value := p, explicit := true, optional := true }
      fixcom := { initialFixcom with explicit := true, valueOpt := some (.sbool fc) }
      fixatoms := { initialFixatoms with
                      explicit := true
                      valueOpt := some (fa.map .sint)
                      shape := { shapeAttrInit with
                                  explicit := true
                                  valueOpt := some (.stuple [(fa.length : Int)]) } } }

/-- The state produced by storing an `AlchemyMC` into a fresh base node. -/
def alchStored (fc : Bool) (fa : List Int) (p : Kwargs) : MotionBaseState :=
  { initialInputMotionBase with
      explicit := true
      mode := { initialMode with explicit := true, valueOpt := some (.sstr "alchemy") }
      alchemy := { value := p, explicit := true, optional := true }
      fixcom := { initialFixcom with explicit := true, valueOpt := some (.sbool fc) }
      fixatoms := { initialFixatoms with
                      explicit := true
                      valueOpt := some (fa.map .sint)
                      shape := { shapeAttrInit with
                                  explicit := true
                                  valueOpt := some (.stuple [(fa.length : Int)]) } } }

/-- The state produced by storing a `Replay` into a fresh base node. -/
def replayStored (r : InitFile) : MotionBaseState :=
  { initialInputMotionBase with
      explicit := true
      mode := { initialMode with explicit := true, valueOpt := some (.sstr "replay") }
      file := { value := r, explicit := true, optional := true } }

/-- The state produced by storing the no-op `Motion()` into a fresh base
node. -/
def baseStored : MotionBaseState :=
  { initialInputMotionBase with
      explicit := true
      mode := { initialMode with explicit := true, valueOpt := some (.sstr "dummy") } }

/-! General lemmas and constructor-fidelity links. -/

/-- The `shape` attribute node literal agrees with the generic constructor
applied to `InputArray.attribs`'s declaration. -/
theorem shapeAttrInit_eq_mk :
    mkInputValue .dtuple none none (some (.lit (.stuple [0]))) none = .ok shapeAttrInit := rfl

/-- The `mode` literal agrees with the generic constructor applied to the
declaration in `InputMotionBase.attribs`. -/
theorem initialMode_eq_mk :
    mkInputValue .dstr none none none (some motionModeOptions) = .ok initialMode := rfl

/-- The `fixcom` literal agrees with the generic constructor applied to the
declaration in `InputMotionBase.fields`. -/
theorem initialFixcom_eq_mk :
    mkInputValue .dbool none none (some (.lit (.sbool true))) none = .ok initialFixcom := rfl

/-- The `fixatoms` literal agrees with the generic constructor applied to
the declaration in `InputMotionBase.fields`. -/
theorem initialFixatoms_eq_mk :
    mkInputArray .dint none none (some (.lit ⟨[0], []⟩)) = .ok initialFixatoms := rfl

/-- Coercion to a value's own runtime type is the identity: `self.type(value)`
returns the value unchanged when it already has the declared type. -/
theorem coerce_styp (v : SVal) : coerce v.styp v = some v := by
  cases v <;> simp [coerce, SVal.styp, SVal.truthy, SVal.pyStr]

/-- Elementwise coercion of a list of values that already have the declared
type is the identity. -/
theorem coerceList_all (t : DType) (l : List SVal) (h : ∀ v ∈ l, v.styp = t) :
    coerceList t l = some l := by
  induction l with
  | nil => rfl
  | cons a as ih =>
    have ha : coerce t a = some a := by
      have := coerce_styp a
      rwa [h a (by simp)] at this
    have has : coerceList t as = some as := ih (fun v hv => h v (by simp [hv]))
    simp [coerceList, ha, has]

/-- C1: the spec requires a shape/length disagreement to raise at parse
time; the code stores the declared shape verbatim and the parse succeeds.
Parsing a tag that declares shape `(3,)` over the two-element body
`[1, 2]` into a fresh `fixatoms` node returns normally, refuting the
claim at this input. -/
theorem C1_counterexample :
    ArrayState.parseXml initialFixatoms demoMismatchXml = .ok demoMismatchParsed := rfl

/-- C1 (amended): parsing an array tag whose explicit shape attribute
disagrees with the flattened body length succeeds — the declared shape is
stored verbatim with no comparison against the value — and the mismatch
first raises when `fetch` attempts `value.reshape(shape)`. -/
theorem C1_mismatch_detected_at_fetch (st : ArrayState) (name : String)
    (sh : List Int) (data : List SVal)
    (hsd : st.shape.dtype = .dtuple) (hsv : st.shape.valid = none)
    (hsdim : st.shape.dimension = "undefined")
    (hty : ∀ v ∈ data, v.styp = st.dtype)
    (hz : sh ≠ [0]) (hpos : sh.all (fun d => 0 ≤ d))
    (hmis : shapeProd sh ≠ (data.length : Int)) :
    ∃ st2, ArrayState.parseXml st (arrXml name sh data) = .ok st2
      ∧ st2.fetch = .error .reshapeError := by
  have hco : coerce st.shape.dtype (.stuple sh) = some (.stuple sh) := by
    rw [hsd]; rfl
  have hra : read_array st.dtype (.array data) = .ok data := by
    simp [read_array, List.all_eq_true]
    intro v hv
    exact hty v hv
  have hp : ArrayState.parseXml st (arrXml name sh data)
      = .ok ({ st with
                 explicit := true
                 valueOpt := some data
                 shape := { st.shape with explicit := true, valueOpt := some (.stuple sh) } }) := by
    simp [ArrayState.parseXml, arrXml, hra, read_type, SVal.styp, ValueState.store, hco, List.lookup]
  refine ⟨_, hp, ?_⟩
  simp [ArrayState.fetch, ValueState.fetch, ValueState.check, hsv, hsdim, hz,
    npReshape, hpos, hmis]

/-- C4: for scalar and array leaves (unit-less, as declared throughout the
motion schema), for every representative value of the leaf's declared type
that passes the option whitelist — including the empty string and the empty
array — `fetch` after `store(v)` returns `v` unchanged. -/
theorem C4_leaf_roundtrip :
    (∀ (st : ValueState) (v : SVal), st.dimension = "undefined" → v.styp = st.dtype →
      (st.valid = none ∨ ∃ opts, st.valid = some opts ∧ v ∈ opts) →
      ((st.store v).1).fetch = .ok v)
    ∧ (∀ (st : ArrayState) (nd : NDArray), st.dimension = "undefined" →
      st.shape.dtype = .dtuple → st.shape.valid = none → st.shape.dimension = "undefined" →
      (∀ v ∈ nd.data, v.styp = st.dtype) →
      nd.shape.all (fun d => 0 ≤ d) → shapeProd nd.shape = (nd.data.length : Int) →
      ((st.store nd).1).fetch = .ok nd) := by
  constructor
  · intro st v hdim hty hval
    have hco : coerce st.dtype v = some v := by
      have := coerce_styp v
      rwa [hty] at this
    simp only [ValueState.store, hco]
    rcases hval with h | ⟨opts, hopts, hmem⟩ <;>
      simp [ValueState.fetch, ValueState.check, hdim, *]
  · intro st nd hdim hsd hsv hsdim hty hpos hlen
    obtain ⟨sh, data⟩ := nd
    simp only at hty hpos hlen
    have hco : coerce st.shape.dtype (.stuple sh) = some (.stuple sh) := by
      rw [hsd]; rfl
    have hcl : coerceList st.dtype data = some data := coerceList_all _ _ hty
    by_cases hz : sh = [0]
    · subst hz
      have hd0 : data = [] := by
        have : (data.length : Int) = 0 := by
          simpa [shapeProd] using hlen.symm
        simpa using this
      subst hd0
      simp [ArrayState.store, ArrayState.fetch, ValueState.store, ValueState.fetch,
        ValueState.check, hco, hcl, hsv, hsdim, hdim, hsd, coerce]
    · simp [ArrayState.store, ArrayState.fetch, ValueState.store, ValueState.fetch,
        ValueState.check, hco, hcl, hsv, hsdim, hdim, hz, npReshape, hpos, hlen]

/-- C4 witness: the empty string on a mandatory string leaf and the empty
array on the `fixatoms` node round-trip through `store`/`fetch`. -/
theorem C4_leaf_roundtrip_witness :
    ((demoStrLeaf.store (.sstr "")).1.fetch = .ok (.sstr ""))
    ∧ ((initialFixatoms.store ⟨[0], []⟩).1.fetch = .ok ⟨[0], []⟩) :=
  ⟨C4_leaf_roundtrip.1 demoStrLeaf (.sstr "") rfl rfl (Or.inl rfl),
   C4_leaf_roundtrip.2 initialFixatoms ⟨[0], []⟩ rfl rfl rfl rfl (by simp) (by decide) (by decide)⟩


/-- When `InputMotionBase.store` returns normally the node is explicit and
the `_optional` flag (never touched by `store`) is preserved. -/
theorem storeB_flags (st : MotionBaseState) (m : Motion) (st2 : MotionBaseState)
    (h : storeB st m = .ok st2) : st2.explicit = true ∧ st2.optional = st.optional := by
  cases m <;> simp only [storeB] at h <;>
    first
    | (cases h; exact ⟨rfl, rfl⟩)
    | cases h
    | (split at h
       · cases h
       · cases h; exact ⟨rfl, rfl⟩)

/-- C6: every leaf or motion-base node constructed with a default (literal
or descriptor) comes out of the constructor with the default applied through
`store` (the stored value is the coerced materialized default) and
`is_explicit` false; a node constructed without a default comes out with
`is_explicit` false, `is_optional` false and no stored value. -/
theorem C6_constructor_defaults :
    (∀ t dim units dflt opts st, mkInputValue t dim units dflt opts = .ok st →
      st.explicit = false ∧ st.optional = dflt.isSome ∧
      (dflt = none → st.valueOpt = none) ∧
      (∀ d, dflt = some d → st.valueOpt = coerce t d.materialize))
    ∧ (∀ t dim units dflt st, mkInputArray t dim units dflt = .ok st →
      st.explicit = false ∧ st.optional = dflt.isSome ∧
      (dflt = none → st.valueOpt = none) ∧
      (∀ d, dflt = some d → st.valueOpt = coerceList t d.materialize.data))
    ∧ (∀ dflt st, mkMotionBase dflt = .ok st →
      st.explicit = false ∧ st.optional = dflt.isSome) := by
  refine ⟨?_, ?_, ?_⟩
  · intro t dim units dflt opts st hmk
    cases dflt with
    | none =>
      simp only [mkInputValue] at hmk
      cases hmk
      simp
    | some d =>
      simp only [mkInputValue, ValueState.store] at hmk
      cases hco : coerce t d.materialize with
      | none => rw [hco] at hmk; cases hmk
      | some w =>
        rw [hco] at hmk
        cases opts with
        | none =>
          cases hmk
          simp [hco]
        | some os =>
          by_cases hin : d.materialize ∈ os
          · simp only [hin, if_pos] at hmk
            cases hmk
            simp [hco]
          · simp [hin] at hmk
  · intro t dim units dflt st hmk
    cases dflt with
    | none =>
      simp only [mkInputArray] at hmk
      cases hmk
      simp
    | some d =>
      simp only [mkInputArray, ArrayState.store, ValueState.store, shapeAttrInit] at hmk
      simp only [coerce] at hmk
      cases hcl : coerceList t d.materialize.data with
      | none => rw [hcl] at hmk; simp at hmk
      | some flat =>
        rw [hcl] at hmk
        simp only [ValueState.fetch, ValueState.check] at hmk
        by_cases hz : SVal.stuple d.materialize.shape = SVal.stuple [0]
        · simp [hz] at hmk
          cases hmk
          simp [hcl]
        · simp [hz] at hmk
          cases hmk
          simp [hcl]
  · intro dflt st hmk
    cases dflt with
    | none =>
      simp only [mkMotionBase] at hmk
      cases hmk
      simp [initialInputMotionBase]
    | some d =>
      simp only [mkMotionBase] at hmk
      cases hsb : storeB { initialInputMotionBase with optional := true } d.materialize with
      | error e => rw [hsb] at hmk; cases hmk
      | ok st1 =>
        rw [hsb] at hmk
        cases hmk
        have := (storeB_flags _ _ _ hsb).2
        simp at this
        simp [this]

/-- C6 witness: the constructed `fixcom` (literal default), `fixatoms`
(default array) and `InputMotionBase()` (no default) nodes carry the claimed
flags. -/
theorem C6_constructor_defaults_witness :
    (initialFixcom.explicit = false ∧ initialFixcom.optional = true)
    ∧ (initialFixatoms.explicit = false ∧ initialFixatoms.optional = true)
    ∧ (initialInputMotionBase.explicit = false ∧ initialInputMotionBase.optional = false) := by
  have h1 := C6_constructor_defaults.1 .dbool none none (some (.lit (.sbool true))) none
    initialFixcom initialFixcom_eq_mk
  have h2 := C6_constructor_defaults.2.1 .dint none none (some (.lit ⟨[0], []⟩))
    initialFixatoms initialFixatoms_eq_mk
  have h3 := C6_constructor_defaults.2.2 none initialInputMotionBase rfl
  refine ⟨⟨h1.1, ?_⟩, ⟨h2.1, ?_⟩, h3.1, ?_⟩
  · exact h1.2.1
  · exact h2.2.1
  · exact h3.2

/-- C10: when `InputValue.store` raises because the value cannot be coerced
to the declared type, the node is nonetheless left explicit (the flag is set
before coercion is attempted), so on a mandatory node that never held a
value a subsequent `check` does not raise the missing-value error. -/
theorem C10_failed_store_marks_explicit (st : ValueState) (v : SVal)
    (_hopt : st.optional = false) (hvnone : st.valueOpt = none)
    (hfail : ((st.store v).2).isSome = true) :
    ((st.store v).1).explicit = true ∧
      ∀ s, ((st.store v).1).check ≠ some (.missingValue s) := by
  cases hco : coerce st.dtype v with
  | some w => simp [ValueState.store, hco] at hfail
  | none =>
    simp only [ValueState.store, hco]
    refine ⟨by simp, ?_⟩
    intro s
    simp only [ValueState.check, hvnone]
    cases st.valid <;> simp

/-- C10 witness: a mandatory integer leaf fed a tuple (`int((...))` raises)
ends up explicit, and its `check` does not report the missing-value
error. -/
theorem C10_failed_store_marks_explicit_witness :
    ((demoIntLeaf.store (.stuple [])).1.explicit = true) ∧
      ((demoIntLeaf.store (.stuple [])).1.check ≠ some (.missingValue "InputValue")) :=
  ⟨(C10_failed_store_marks_explicit demoIntLeaf (.stuple []) rfl rfl rfl).1,
   (C10_failed_store_marks_explicit demoIntLeaf (.stuple []) rfl rfl rfl).2 "InputValue"⟩

/-- Scanning a concatenation for the first non-explicit, non-optional child
finds the first offender of the left part, else of the right part (the
attribute loop runs before the field loop). -/
theorem firstNonExplicit_append (l1 l2 : List (String × INode)) :
    firstNonExplicit (l1 ++ l2) =
      match firstNonExplicit l1 with
      | some p => some p
      | none => firstNonExplicit l2 := by
  simp only [firstNonExplicit, List.find?_append]
  cases List.find? (fun p => ¬(p.2.explicitOf ∨ p.2.optionalOf)) l1 <;> simp

/-- C8: after `Input.parse` has routed all attributes and children, the
mandatory check raises on the first declared item that is neither explicit
nor optional, attributes scanned before fields, naming that item and the
enclosing tag. -/
theorem C8_missing_mandatory_after_parse (name : String)
    (xatts : List (String × RawVal)) (xflds : XmlFields)
    (atts flds dyn extra0 : List (String × INode)) (exp0 opt : Bool)
    (atts2 flds2 extra2 : List (String × INode)) (p : String × INode)
    (hatts : parseCompAttribs name atts xatts = .ok atts2)
    (hflds : INode.parseFields name flds dyn [] xflds = .ok (flds2, extra2))
    (hfirst : firstNonExplicit (atts2 ++ flds2) = some p) :
    (firstNonExplicit atts2 = some p →
      INode.parseNode (.icomp atts flds dyn extra0 exp0 opt) (.mk name xatts xflds)
        = .error (.missingAttribute p.1 name))
    ∧ (firstNonExplicit atts2 = none → firstNonExplicit flds2 = some p →
      INode.parseNode (.icomp atts flds dyn extra0 exp0 opt) (.mk name xatts xflds)
        = .error (.missingField p.1 name))
    ∧ (INode.parseNode (.icomp atts flds dyn extra0 exp0 opt) (.mk name xatts xflds)
        = .error (.missingAttribute p.1 name)
      ∨ INode.parseNode (.icomp atts flds dyn extra0 exp0 opt) (.mk name xatts xflds)
        = .error (.missingField p.1 name)) := by
  have hunf : INode.parseNode (.icomp atts flds dyn extra0 exp0 opt) (.mk name xatts xflds)
      = (match firstNonExplicit atts2 with
         | some q => .error (.missingAttribute q.1 name)
         | none =>
           match firstNonExplicit flds2 with
           | some q => .error (.missingField q.1 name)
           | none => .ok (.icomp atts2 flds2 dyn extra2 true opt)) := by
    rw [INode.parseNode.eq_def]
    simp [hatts, hflds]
  rw [firstNonExplicit_append] at hfirst
  refine ⟨?_, ?_, ?_⟩
  · intro h1
    rw [hunf, h1]
  · intro h1 h2
    rw [hunf, h1, h2]
  · cases h1 : firstNonExplicit atts2 with
    | some q =>
      rw [h1] at hfirst
      simp only at hfirst
      cases hfirst
      exact Or.inl (by rw [hunf, h1])
    | none =>
      have h2 : firstNonExplicit flds2 = some p := by
        rw [h1] at hfirst
        simpa using hfirst
      refine Or.inr ?_
      rw [hunf, h1]
      simp only [h2]

/-- C8 witness: a composite declaring one mandatory attribute, parsed
against an empty tag, fails naming that attribute and the tag. -/
theorem C8_missing_mandatory_after_parse_witness :
    INode.parseNode demoComp (.mk "root" [] .nil) = .error (.missingAttribute "req" "root") :=
  (C8_missing_mandatory_after_parse "root" [] .nil [("req", .ival demoIntLeaf)] [] [] [] false false
    [("req", .ival demoIntLeaf)] [] [] ("req", .ival demoIntLeaf) rfl rfl (by rfl)).1 rfl


/-- The child loop rejects a tag that is neither declared, `_text`, nor
dynamic. -/
theorem parseFields_unknown_tag (name : String) (flds dyn extra : List (String × INode))
    (f : String) (ch : XmlChild) (rest : XmlFields)
    (hf : flds.lookup f = none) (ht : f ≠ "_text") (hd : dyn.lookup f = none) :
    INode.parseFields name flds dyn extra (.cons f ch rest)
      = .error (.unrecognizedTag f name) := by
  rw [INode.parseFields.eq_def]
  simp [hf, ht, hd]

/-- The child loop instantiates a dynamic template, parses it, and appends
the result to `extra`. -/
theorem parseFields_dynamic_extend (name : String) (flds dyn extra : List (String × INode))
    (f : String) (x : XmlNode) (rest : XmlFields) (tmpl inst : INode)
    (hf : flds.lookup f = none) (ht : f ≠ "_text") (hd : dyn.lookup f = some tmpl)
    (hp : INode.parseNode tmpl x = .ok inst) :
    INode.parseFields name flds dyn extra (.cons f (.node x) rest)
      = INode.parseFields name flds dyn (extra ++ [(f, inst)]) rest := by
  rw [INode.parseFields.eq_def]
  simp [hf, ht, hd, hp]

/-- An error of the child loop propagates out of the composite `parse`. -/
theorem parseNode_fields_error (atts flds dyn extra0 : List (String × INode))
    (exp0 opt : Bool) (name : String) (xatts : List (String × RawVal)) (xflds : XmlFields)
    (atts2 : List (String × INode)) (e : Err)
    (hatts : parseCompAttribs name atts xatts = .ok atts2)
    (hflds : INode.parseFields name flds dyn [] xflds = .error e) :
    INode.parseNode (.icomp atts flds dyn extra0 exp0 opt) (.mk name xatts xflds)
      = .error e := by
  rw [INode.parseNode.eq_def]
  simp [hatts, hflds]

/-- C9: the child loop of `Input.parse` raises `UnrecognizedTagError` naming
the offending tag and the enclosing node for any child tag that is neither a
declared field, the `_text` pseudo-child, nor a dynamic template; a tag
matching a dynamic template is instead instantiated from the template,
parsed, and appended to `extra`; and an error of the child loop propagates
out of `parse` itself. -/
theorem C9_unknown_tag_rejection :
    (∀ (name : String) (flds dyn extra : List (String × INode)) (f : String)
      (ch : XmlChild) (rest : XmlFields),
      flds.lookup f = none → f ≠ "_text" → dyn.lookup f = none →
      INode.parseFields name flds dyn extra (.cons f ch rest)
        = .error (.unrecognizedTag f name))
    ∧ (∀ (name : String) (flds dyn extra : List (String × INode)) (f : String)
      (x : XmlNode) (rest : XmlFields) (tmpl inst : INode),
      flds.lookup f = none → f ≠ "_text" → dyn.lookup f = some tmpl →
      INode.parseNode tmpl x = .ok inst →
      INode.parseFields name flds dyn extra (.cons f (.node x) rest)
        = INode.parseFields name flds dyn (extra ++ [(f, inst)]) rest)
    ∧ (∀ (atts flds dyn extra0 : List (String × INode)) (exp0 opt : Bool)
      (name : String) (xatts : List (String × RawVal)) (xflds : XmlFields)
      (atts2 : List (String × INode)) (e : Err),
      parseCompAttribs name atts xatts = .ok atts2 →
      INode.parseFields name flds dyn [] xflds = .error e →
      INode.parseNode (.icomp atts flds dyn extra0 exp0 opt) (.mk name xatts xflds)
        = .error e) :=
  ⟨parseFields_unknown_tag, parseFields_dynamic_extend, parseNode_fields_error⟩

/-- C9 witness: an undeclared tag `bogus` under `root` is rejected naming
both; the declared dynamic template `item` is instantiated, parsed from a
one-value tag, and appended to `extra`; and the rejection surfaces from the
full `parse` of a composite containing the unknown tag. -/
theorem C9_unknown_tag_rejection_witness :
    (INode.parseFields "root" [] [] [] (.cons "bogus" (.text (.scalar (.sint 1))) .nil)
      = .error (.unrecognizedTag "bogus" "root"))
    ∧ (INode.parseFields "root" [] [("item", .ival demoIntLeaf)] []
        (.cons "item" (.node (.mk "item" [] (.cons "_text" (.text (.scalar (.sint 5))) .nil))) .nil)
      = INode.parseFields "root" [] [("item", .ival demoIntLeaf)]
          [("item", .ival { demoIntLeaf with explicit := true, valueOpt := some (.sint 5) })] .nil)
    ∧ (INode.parseNode demoDynComp (.mk "root" [] (.cons "bogus" (.text (.scalar (.sint 1))) .nil))
      = .error (.unrecognizedTag "bogus" "root")) :=
  ⟨C9_unknown_tag_rejection.1 "root" [] [] [] "bogus" (.text (.scalar (.sint 1))) .nil rfl
    (by decide) rfl,
   C9_unknown_tag_rejection.2.1 "root" [] [("item", .ival demoIntLeaf)] [] "item"
    (.mk "item" [] (.cons "_text" (.text (.scalar (.sint 5))) .nil)) .nil (.ival demoIntLeaf)
    (.ival { demoIntLeaf with explicit := true, valueOpt := some (.sint 5) }) rfl (by decide) rfl rfl,
   C9_unknown_tag_rejection.2.2 [] [] [("item", .ival demoIntLeaf)] [] false false "root" []
    (.cons "bogus" (.text (.scalar (.sint 1))) .nil) [] (.unrecognizedTag "bogus" "root") rfl rfl⟩


/-- `InputValue.store` always leaves the node explicit, whether or not the
coercion succeeds. -/
theorem valueStore_explicit (st : ValueState) (v : SVal) :
    ((st.store v).1).explicit = true := by
  unfold ValueState.store
  rcases h : coerce st.dtype v with _ | w <;> simp [h]

/-- `InputArray.store` always leaves the node explicit, whether or not it
returns an error. -/
theorem arrayStore_explicit (st : ArrayState) (nd : NDArray) :
    ((st.store nd).1).explicit = true := by
  unfold ArrayState.store
  dsimp only
  rcases hs : st.shape.store (.stuple nd.shape) with ⟨sh1, e1⟩
  cases e1 with
  | some e => simp
  | none =>
    dsimp only
    rcases hcl : coerceList st.dtype nd.data with _ | flat
    · simp
    · dsimp only
      rcases hf : ValueState.fetch sh1 with e | sv
      · simp
      · dsimp only
        by_cases hz : sv = .stuple [0] <;> simp [hz]

/-- C7: `InputMotionBase.store` stores the two cross-cutting values
(`fixcom`, `fixatoms`) — marking both nodes explicit — for every non-trivial
kind except `replay`; for `replay` it stores only the file reference,
leaving `fixcom` and `fixatoms` exactly as they were (in particular not
explicit on a fresh node); the trivial `dummy` kind touches none of the
three. -/
theorem C7_common_attrs_asymmetry :
    (∀ st fc fa p st2, storeB st (.geop fc fa p) = .ok st2 →
      st2.fixcom.explicit = true ∧ st2.fixatoms.explicit = true)
    ∧ (∀ st fc fa p st2, storeB st (.neb fc fa p) = .ok st2 →
      st2.fixcom.explicit = true ∧ st2.fixatoms.explicit = true)
    ∧ (∀ st fc fa p st2, storeB st (.dynamics fc fa p) = .ok st2 →
      st2.fixcom.explicit = true ∧ st2.fixatoms.explicit = true)
    ∧ (∀ st fc fa p st2, storeB st (.vibrations fc fa p) = .ok st2 →
      st2.fixcom.explicit = true ∧ st2.fixatoms.explicit = true)
    ∧ (∀ st fc fa p st2, storeB st (.alchemy fc fa p) = .ok st2 →
      st2.fixcom.explicit = true ∧ st2.fixatoms.explicit = true)
    ∧ (∀ st r st2, storeB st (.replay r) = .ok st2 →
      st2.file.explicit = true ∧ st2.fixcom = st.fixcom ∧ st2.fixatoms = st.fixatoms)
    ∧ (∀ st st2, storeB st .base = .ok st2 →
      st2.fixcom = st.fixcom ∧ st2.fixatoms = st.fixatoms ∧ st2.file = st.file) := by
  refine ⟨?_, ?_, ?_, ?_, ?_, ?_, ?_⟩
  case _ => intro st fc fa p st2 h; (
    simp only [storeB] at h
    rcases hfa : st.fixatoms.store (intArr fa) with ⟨fan, fae⟩
    rw [hfa] at h
    cases fae with
    | some e => simp at h
    | none =>
      dsimp only at h
      cases h
      refine ⟨valueStore_explicit st.fixcom (.sbool fc), ?_⟩
      have := arrayStore_explicit st.fixatoms (intArr fa)
      rw [hfa] at this
      exact this)
  case _ => intro st fc fa p st2 h; (
    simp only [storeB] at h
    rcases hfa : st.fixatoms.store (intArr fa) with ⟨fan, fae⟩
    rw [hfa] at h
    cases fae with
    | some e => simp at h
    | none =>
      dsimp only at h
      cases h
      refine ⟨valueStore_explicit st.fixcom (.sbool fc), ?_⟩
      have := arrayStore_explicit st.fixatoms (intArr fa)
      rw [hfa] at this
      exact this)
  case _ => intro st fc fa p st2 h; (
    simp only [storeB] at h
    rcases hfa : st.fixatoms.store (intArr fa) with ⟨fan, fae⟩
    rw [hfa] at h
    cases fae with
    | some e => simp at h
    | none =>
      dsimp only at h
      cases h
      refine ⟨valueStore_explicit st.fixcom (.sbool fc), ?_⟩
      have := arrayStore_explicit st.fixatoms (intArr fa)
      rw [hfa] at this
      exact this)
  case _ => intro st fc fa p st2 h; (
    simp only [storeB] at h
    rcases hfa : st.fixatoms.store (intArr fa) with ⟨fan, fae⟩
    rw [hfa] at h
    cases fae with
    | some e => simp at h
    | none =>
      dsimp only at h
      cases h
      refine ⟨valueStore_explicit st.fixcom (.sbool fc), ?_⟩
      have := arrayStore_explicit st.fixatoms (intArr fa)
      rw [hfa] at this
      exact this)
  case _ => intro st fc fa p st2 h; (
    simp only [storeB] at h
    rcases hfa : st.fixatoms.store (intArr fa) with ⟨fan, fae⟩
    rw [hfa] at h
    cases fae with
    | some e => simp at h
    | none =>
      dsimp only at h
      cases h
      refine ⟨valueStore_explicit st.fixcom (.sbool fc), ?_⟩
      have := arrayStore_explicit st.fixatoms (intArr fa)
      rw [hfa] at this
      exact this)
  case _ => intro st r st2 h; (
    simp only [storeB] at h
    cases h
    exact ⟨rfl, rfl, rfl⟩)
  case _ => intro st st2 h; (
    simp only [storeB] at h
    cases h
    exact ⟨rfl, rfl, rfl⟩)

/-- C7 witness: storing the `minimize` example marks both common nodes
explicit; storing the `replay` example marks the file node explicit and
leaves `fixcom`/`fixatoms` exactly as constructed. -/
theorem C7_common_attrs_asymmetry_witness :
    (demoGeopStored.fixcom.explicit = true ∧ demoGeopStored.fixatoms.explicit = true)
    ∧ (demoReplayStored.file.explicit = true
      ∧ demoReplayStored.fixcom = initialInputMotionBase.fixcom
      ∧ demoReplayStored.fixatoms = initialInputMotionBase.fixatoms) :=
  ⟨C7_common_attrs_asymmetry.1 initialInputMotionBase false [3, 7] [] demoGeopStored rfl,
   C7_common_attrs_asymmetry.2.2.2.2.2.1 initialInputMotionBase ⟨"xyz", "in.xyz"⟩
     demoReplayStored rfl⟩

/-- C2 counterexample: the `multi` branch of `InputMotion.store` accepts the
composite object but leaves the dispatcher node's own `is_explicit` false —
refuting the claim that every `store` marks the node explicit. -/
theorem C2_counterexample :
    storeM initialInputMotion (.multi []) = .ok demoMultiStored
      ∧ demoMultiStored.base.explicit = false :=
  ⟨rfl, rfl⟩

/-- C2 (amended): every `store` marks its node explicit — the leaf stores
unconditionally, the base dispatcher store on success, the variant
dispatcher store on success for every non-composite kind — except the
`multi` branch of `InputMotion.store`, which never calls the inherited
`store` and leaves the node's own explicit flag unchanged (only the
discriminator attribute is marked). -/
theorem C2_store_marks_explicit_except_multi :
    (∀ st v, ((ValueState.store st v).1).explicit = true)
    ∧ (∀ st nd, ((ArrayState.store st nd).1).explicit = true)
    ∧ (∀ st m st2, storeB st m = .ok st2 → st2.explicit = true)
    ∧ (∀ st m st2, m.isMulti = false → storeM st m = .ok st2 → st2.base.explicit = true)
    ∧ (∀ st l st2, storeM st (.multi l) = .ok st2 →
        st2.base.explicit = st.base.explicit) := by
  refine ⟨valueStore_explicit, arrayStore_explicit,
    fun st m st2 h => (storeB_flags st m st2 h).1, ?_, ?_⟩
  · intro st m st2 hm h
    have hun : storeM st m = (match storeB st.base m with
        | .error e => .error e
        | .ok b => .ok { st with base := b }) := by
      cases m <;> first | rfl | exact Bool.noConfusion hm
    rw [hun] at h
    rcases hb : storeB st.base m with e | b <;> rw [hb] at h
    · cases h
    · dsimp only at h
      cases h
      exact (storeB_flags _ _ _ hb).1
  · intro st l st2 h
    simp only [storeM] at h
    rcases hm : st.base.mode.store (.sstr "multi") with ⟨m2, me⟩
    rw [hm] at h
    rcases hc : storeChildren l with e | cs <;> rw [hc] at h
    · cases h
    · dsimp only at h
      cases h
      rfl

/-- C2 amended witness: concrete stores of each flavor, including the
`multi` store that leaves the fresh dispatcher's flag at false. -/
theorem C2_store_marks_explicit_except_multi_witness :
    ((demoStrLeaf.store (.sstr "x")).1.explicit = true)
    ∧ ((initialFixatoms.store (intArr [1])).1.explicit = true)
    ∧ (demoGeopStored.explicit = true)
    ∧ (demoDummyStored.base.explicit = true)
    ∧ (demoMultiStored.base.explicit = initialInputMotion.base.explicit) :=
  ⟨C2_store_marks_explicit_except_multi.1 demoStrLeaf (.sstr "x"),
   C2_store_marks_explicit_except_multi.2.1 initialFixatoms (intArr [1]),
   C2_store_marks_explicit_except_multi.2.2.1 initialInputMotionBase (.geop false [3, 7] [])
     demoGeopStored rfl,
   C2_store_marks_explicit_except_multi.2.2.2.1 initialInputMotion .base demoDummyStored rfl rfl,
   C2_store_marks_explicit_except_multi.2.2.2.2 initialInputMotion [] demoMultiStored rfl⟩

/-- C3: when the dispatcher node passes its own check and the discriminator
fetch succeeds with a value that names none of the registered kind branches
(so necessarily `dummy`, the only whitelisted value without a branch),
`fetch` does not raise: both the variant dispatcher and the base dispatcher
return the minimal no-op `Motion()` placeholder.  (A value outside the
whitelist never reaches the dispatch: the discriminator's own leaf `fetch`
raises `InvalidOptionError` first, which is the hypothesis
`mode.fetch = ok m`.) -/
theorem C3_unregistered_discriminator_placeholder (st : MotionState) (m : String)
    (hnode : st.base.explicit = true ∨ st.base.optional = true)
    (hmode : st.base.mode.fetch = .ok (.sstr m))
    (hm : m ∉ ["replay", "minimize", "neb", "dynamics", "vibrations", "alchemy", "multi"]) :
    fetchM st = .ok Motion.base ∧ fetchB st.base = .ok Motion.base := by
  simp only [List.mem_cons, List.mem_singleton] at hm
  push_neg at hm
  obtain ⟨h1, h2, h3, h4, h5, h6, h7, -⟩ := hm
  have hb : fetchB st.base = .ok Motion.base := by
    unfold fetchB
    rcases hnode with h | h <;>
      simp [h, hmode, Bind.bind, Except.bind, SVal.sstr.injEq, h1, h2, h3, h4, h5, h6]
  refine ⟨?_, hb⟩
  unfold fetchM
  simp [hmode, Bind.bind, Except.bind, SVal.sstr.injEq, h7, hb]

/-- C3 witness: a dispatcher that stored the no-op `Motion()` has
discriminator `dummy`, which matches no registered kind branch, and `fetch`
returns the placeholder rather than raising. -/
theorem C3_unregistered_discriminator_placeholder_witness :
    fetchM demoDummyStored = .ok Motion.base
      ∧ fetchB demoDummyStored.base = .ok Motion.base :=
  C3_unregistered_discriminator_placeholder demoDummyStored "dummy" (Or.inl rfl) rfl (by decide)

/-- Integer data coerces to itself elementwise. -/
theorem coerceList_int_map (l : List Int) :
    coerceList .dint (l.map .sint) = some (l.map .sint) := by
  induction l with
  | nil => rfl
  | cons a as ih => simp [coerceList, coerce, ih]

/-- Extracting the ints of an int-injected list recovers the list. -/
theorem intsOf_map (l : List Int) : intsOf (l.map .sint) = some l := by
  induction l with
  | nil => rfl
  | cons a as ih => simp [intsOf, ih]

/-- Storing a 1-D integer index array into the fresh `fixatoms` node
succeeds, and fetching it back returns the same array. -/
theorem fixatoms_roundtrip (fa : List Int) :
    initialFixatoms.store (intArr fa)
      = ({ initialFixatoms with
            explicit := true
            valueOpt := some (fa.map .sint)
            shape := { shapeAttrInit with
                        explicit := true
                        valueOpt := some (.stuple [(fa.length : Int)]) } }, none)
    ∧ (({ initialFixatoms with
            explicit := true
            valueOpt := some (fa.map .sint)
            shape := { shapeAttrInit with
                        explicit := true
                        valueOpt := some (.stuple [(fa.length : Int)]) } } : ArrayState).fetch
        = .ok (intArr fa)) := by
  have hcl := coerceList_int_map fa
  by_cases hfa : fa = []
  · subst hfa
    exact ⟨rfl, rfl⟩
  · have hlen : ((fa.length : Int)) ≠ 0 := by
      simpa using hfa
    constructor
    · simp only [ArrayState.store, initialFixatoms, shapeAttrInit, intArr,
        ValueState.store, ValueState.fetch, ValueState.check, coerce, hcl]
      simp [hlen]
    · simp only [ArrayState.fetch, initialFixatoms, shapeAttrInit, intArr,
        ValueState.fetch, ValueState.check]
      simp [hlen, npReshape, shapeProd, Int.natCast_nonneg]

theorem storeB_geop (fc : Bool) (fa : List Int) (p : Kwargs) :
    storeB initialInputMotionBase (.geop fc fa p) = .ok (geopStored fc fa p) := by
  have hs := (fixatoms_roundtrip fa).1
  simp only [storeB, initialInputMotionBase]
  rw [hs]
  simp [geopStored, ValueState.store, ParamState.store, coerce, SVal.truthy, SVal.pyStr,
    initialInputMotionBase, initialMode, initialFixcom, initialFixatoms, shapeAttrInit,
    initialParam]

theorem fetchB_geop (fc : Bool) (fa : List Int) (p : Kwargs) :
    fetchB (geopStored fc fa p) = .ok (.geop fc fa p) := by
  have hf := (fixatoms_roundtrip fa).2
  unfold fetchB fetchCommon
  simp [geopStored, ValueState.fetch, ValueState.check, hf, intsOf_map, SVal.asBool,
    NDArray.asInts, intArr, FileState.fetch, ParamState.fetch, Bind.bind, Except.bind,
    motionModeOptions, initialMode, initialFixcom]

theorem storeB_neb (fc : Bool) (fa : List Int) (p : Kwargs) :
    storeB initialInputMotionBase (.neb fc fa p) = .ok (nebStored fc fa p) := by
  have hs := (fixatoms_roundtrip fa).1
  simp only [storeB, initialInputMotionBase]
  rw [hs]
  simp [nebStored, ValueState.store, ParamState.store, coerce, SVal.truthy, SVal.pyStr,
    initialInputMotionBase, initialMode, initialFixcom, initialFixatoms, shapeAttrInit,
    initialParam]

theorem fetchB_neb (fc : Bool) (fa : List Int) (p : Kwargs) :
    fetchB (nebStored fc fa p) = .ok (.neb fc fa p) := by
  have hf := (fixatoms_roundtrip fa).2
  unfold fetchB fetchCommon
  simp [nebStored, ValueState.fetch, ValueState.check, hf, intsOf_map, SVal.asBool,
    NDArray.asInts, intArr, FileState.fetch, ParamState.fetch, Bind.bind, Except.bind,
    motionModeOptions, initialMode, initialFixcom]

theorem storeB_dyn (fc : Bool) (fa : List Int) (p : Kwargs) :
    storeB initialInputMotionBase (.dynamics fc fa p) = .ok (dynStored fc fa p) := by
  have hs := (fixatoms_roundtrip fa).1
  simp only [storeB, initialInputMotionBase]
  rw [hs]
  simp [dynStored, ValueState.store, ParamState.store, coerce, SVal.truthy, SVal.pyStr,
    initialInputMotionBase, initialMode, initialFixcom, initialFixatoms, shapeAttrInit,
    initialParam]

theorem fetchB_dyn (fc : Bool) (fa : List Int) (p : Kwargs) :
    fetchB (dynStored fc fa p) = .ok (.dynamics fc fa p) := by
  have hf := (fixatoms_roundtrip fa).2
  unfold fetchB fetchCommon
  simp [dynStored, ValueState.fetch, ValueState.check, hf, intsOf_map, SVal.asBool,
    NDArray.asInts, intArr, FileState.fetch, ParamState.fetch, Bind.bind, Except.bind,
    motionModeOptions, initialMode, initialFixcom]

theorem storeB_vib (fc : Bool) (fa : List Int) (p : Kwargs) :
    storeB initialInputMotionBase (.vibrations fc fa p) = .ok (vibStored fc fa p) := by
  have hs := (fixatoms_roundtrip fa).1
  simp only [storeB, initialInputMotionBase]
  rw [hs]
  simp [vibStored, ValueState.store, ParamState.store, coerce, SVal.truthy, SVal.pyStr,
    initialInputMotionBase, initialMode, initialFixcom, initialFixatoms, shapeAttrInit,
    initialParam]

theorem fetchB_vib (fc : Bool) (fa : List Int) (p : Kwargs) :
    fetchB (vibStored fc fa p) = .ok (.vibrations fc fa p) := by
  have hf := (fixatoms_roundtrip fa).2
  unfold fetchB fetchCommon
  simp [vibStored, ValueState.fetch, ValueState.check, hf, intsOf_map, SVal.asBool,
    NDArray.asInts, intArr, FileState.fetch, ParamState.fetch, Bind.bind, Except.bind,
    motionModeOptions, initialMode, initialFixcom]

theorem storeB_alch (fc : Bool) (fa : List Int) (p : Kwargs) :
    storeB initialInputMotionBase (.alchemy fc fa p) = .ok (alchStored fc fa p) := by
  have hs := (fixatoms_roundtrip fa).1
  simp only [storeB, initialInputMotionBase]
  rw [hs]
  simp [alchStored, ValueState.store, ParamState.store, coerce, SVal.truthy, SVal.pyStr,
    initialInputMotionBase, initialMode, initialFixcom, initialFixatoms, shapeAttrInit,
    initialParam]

theorem fetchB_alch (fc : Bool) (fa : List Int) (p : Kwargs) :
    fetchB (alchStored fc fa p) = .ok (.alchemy fc fa p) := by
  have hf := (fixatoms_roundtrip fa).2
  unfold fetchB fetchCommon
  simp [alchStored, ValueState.fetch, ValueState.check, hf, intsOf_map, SVal.asBool,
    NDArray.asInts, intArr, FileState.fetch, ParamState.fetch, Bind.bind, Except.bind,
    motionModeOptions, initialMode, initialFixcom]

theorem storeB_replay (r : InitFile) :
    storeB initialInputMotionBase (.replay r) = .ok (replayStored r) := by
  simp [storeB, ValueState.store, FileState.store, coerce, SVal.truthy, SVal.pyStr,
    replayStored, initialInputMotionBase, initialMode, initialFile, defaultInitFile]

theorem fetchB_replay (r : InitFile) :
    fetchB (replayStored r) = .ok (.replay r) := by
  unfold fetchB fetchCommon
  simp [replayStored, ValueState.fetch, ValueState.check, ArrayState.fetch, SVal.asBool,
    NDArray.asInts, intsOf, FileState.fetch, Bind.bind, Except.bind, motionModeOptions,
    initialMode, initialFixcom, initialFixatoms, shapeAttrInit, initialInputMotionBase]

theorem storeB_base : storeB initialInputMotionBase .base = .ok baseStored := rfl

theorem fetchB_base : fetchB baseStored = .ok .base := rfl

/-- Every non-composite motion kind stores into a fresh base node and
fetches back unchanged. -/
theorem roundtripB (m : Motion) (hm : m.isMulti = false) :
    ∃ c, storeB initialInputMotionBase m = .ok c ∧ fetchB c = .ok m := by
  cases m with
  | base => exact ⟨baseStored, storeB_base, fetchB_base⟩
  | replay r => exact ⟨replayStored r, storeB_replay r, fetchB_replay r⟩
  | geop fc fa p => exact ⟨geopStored fc fa p, storeB_geop fc fa p, fetchB_geop fc fa p⟩
  | neb fc fa p => exact ⟨nebStored fc fa p, storeB_neb fc fa p, fetchB_neb fc fa p⟩
  | dynamics fc fa p => exact ⟨dynStored fc fa p, storeB_dyn fc fa p, fetchB_dyn fc fa p⟩
  | vibrations fc fa p => exact ⟨vibStored fc fa p, storeB_vib fc fa p, fetchB_vib fc fa p⟩
  | alchemy fc fa p => exact ⟨alchStored fc fa p, storeB_alch fc fa p, fetchB_alch fc fa p⟩
  | multi l => exact absurd hm (by simp [Motion.isMulti])

/-- The `multi` store loop succeeds on a list of non-composite sub-motions,
and fetching the resulting `extra` children in order recovers the list. -/
theorem storeChildren_roundtrip (l : List Motion) (hl : ∀ m ∈ l, m.isMulti = false) :
    ∃ cs, storeChildren l = .ok cs
      ∧ fetchExtra (cs.map (fun c => ("motion", c))) = .ok l
      ∧ cs.length = l.length := by
  induction l with
  | nil => exact ⟨[], rfl, rfl, rfl⟩
  | cons m rest ih =>
    obtain ⟨c, hsc, hfc⟩ := roundtripB m (hl m (by simp))
    obtain ⟨cs, hscs, hfcs, hlen⟩ := ih (fun x hx => hl x (by simp [hx]))
    refine ⟨c :: cs, ?_, ?_, by simp [hlen]⟩
    · simp [storeChildren, hsc, hscs]
    · simp [fetchExtra, hfc, hfcs]

/-- C5: storing a composite `MultiMotion` into a fresh variant dispatcher
sets the discriminator to `multi` and appends one `("motion", child)` entry
per sub-motion to `extra` in list order; fetching the dispatcher
reconstructs the same ordered list of sub-motions. -/
theorem C5_multi_roundtrip (l : List Motion) (hl : ∀ m ∈ l, m.isMulti = false) :
    ∃ st2, storeM initialInputMotion (.multi l) = .ok st2
      ∧ st2.base.mode.valueOpt = some (.sstr "multi")
      ∧ st2.extra.map Prod.fst = l.map (fun _ => "motion")
      ∧ fetchM st2 = .ok (.multi l) := by
  obtain ⟨cs, hsc, hfc, hlen⟩ := storeChildren_roundtrip l hl
  refine ⟨{ base := { initialInputMotionBase with
              mode := { initialMode with explicit := true, valueOpt := some (.sstr "multi") } }
            extra := cs.map (fun c => ("motion", c)) }, ?_, rfl, ?_, ?_⟩
  · simp only [storeM, initialInputMotion]
    rw [hsc]
    simp [ValueState.store, coerce, SVal.pyStr, initialMode, initialInputMotionBase]
  · simp only [List.map_map]
    have : (Prod.fst ∘ fun c : MotionBaseState => (("motion" : String), c)) =
        fun _ => ("motion" : String) := rfl
    rw [this, List.map_const', List.map_const', hlen]
  · unfold fetchM
    simp [ValueState.fetch, ValueState.check, initialMode, motionModeOptions,
      Bind.bind, Except.bind, hfc]

/-- C5 witness: the spec §8 scenario — `replay` carrying `in.xyz` followed
by `minimize` carrying `fixcom=false, fixatoms=[3, 7]` — stores with
discriminator `multi` and two ordered `motion` children, and fetches back
in the same order with the same field values. -/
theorem C5_multi_roundtrip_witness :
    ∃ st2, storeM initialInputMotion (.multi specExampleList) = .ok st2
      ∧ st2.base.mode.valueOpt = some (.sstr "multi")
      ∧ st2.extra.map Prod.fst = specExampleList.map (fun _ => "motion")
      ∧ fetchM st2 = .ok (.multi specExampleList) :=
  C5_multi_roundtrip specExampleList (by
    intro m hm
    simp only [specExampleList, List.mem_cons, List.mem_singleton, List.not_mem_nil,
      or_false] at hm
    rcases hm with h | h <;> subst h <;> rfl)

/-- C1 amended witness: the concrete mismatched tag (`shape='(3,)'`, body
`[1, 2]`) parses without error into the fresh `fixatoms` node, and the
subsequent `fetch` raises the reshape error. -/
theorem C1_mismatch_detected_at_fetch_witness :
    ∃ st2, ArrayState.parseXml initialFixatoms (arrXml "fixatoms" [3] [.sint 1, .sint 2])
        = .ok st2
      ∧ st2.fetch = .error .reshapeError :=
  C1_mismatch_detected_at_fetch initialFixatoms "fixatoms" [3] [.sint 1, .sint 2]
    rfl rfl rfl (by intro v hv; simp only [List.mem_cons, List.not_mem_nil, or_false] at hv; rcases hv with h | h <;> subst h <;> rfl)
    (by decide) (by decide) (by decide)
